import Mathlib

/-!
Shallow embedding of apps/api/src/charts/generate_charts.py.

The script reads a JSON document from stdin, builds up to three matplotlib
charts (benefit vs cost scatter, risk histogram, strategy relationship
graph), base64-encodes each rendered PNG into a data URL, and writes a
JSON object with the image descriptors and metadata to stdout.

Modelling conventions:
- JSON values are the inductive type JVal; Python numbers are rationals.
- Python exceptions are Except Unit: .error () is a raised exception.
- stdin is Option JVal: none stands for empty input or input that fails
  to parse as JSON (both give data = ∅ in read_input); some v stands for
  input that parses to the JSON value v.
- Rendering by matplotlib (fig.savefig) is a parameter
  render : Fig → List Nat producing PNG bytes from the figure
  description; everything the script itself computes and passes to the
  plotting calls is captured in Fig.
- The optional networkx_mcp interface is modelled by two booleans:
  hasMcp (importable at startup, line 24-28) and mcpFails (its mirrored
  calls raise, line 121-123); nxAvail models whether networkx itself
  imported (line 19-22).
-/

/-- JSON values as produced by json.loads. -/
inductive JVal where
  | null
  | boolean (b : Bool)
  | num (q : ℚ)
  | str (s : String)
  | arr (xs : List JVal)
  | obj (kvs : List (String × JVal))

/-- Python truthiness of a JSON value (used by the `or` and `if not` idioms). -/
def truthy : JVal → Bool
  | .null => false
  | .boolean b => b
  | .num q => if q = 0 then false else true
  | .str s => !s.isEmpty
  | .arr xs => !xs.isEmpty
  | .obj kvs => !kvs.isEmpty

/-- Test for the JSON null (Python None). -/
def isNull : JVal → Bool
  | .null => true
  | _ => false

/-- Python dict lookup on a parsed JSON object; the later binding of a
repeated key wins, as in dicts produced by json.loads. -/
def dictGet (kvs : List (String × JVal)) (k : String) : Option JVal :=
  match kvs with
  | [] => none
  | kv :: rest =>
    match dictGet rest k with
    | some v => some v
    | none => if kv.1 = k then some kv.2 else none

/-- Python d.get(k, dflt): an AttributeError (modelled as .error) when the
receiver is not a dict, otherwise the stored value or the default. -/
def pyGet (p : JVal) (k : String) (dflt : JVal) : Except Unit JVal :=
  match p with
  | .obj kvs => .ok ((dictGet kvs k).getD dflt)
  | _ => .error ()

/-- Consume an optional sign at the head of a numeric literal; true means
negative. -/
def parseSign : List Char → Bool × List Char
  | '-' :: cs => (true, cs)
  | '+' :: cs => (false, cs)
  | cs => (false, cs)

/-- Value of a block of decimal digit characters. -/
def digitsToNat (ds : List Char) : ℕ :=
  ds.foldl (fun a c => a * 10 + (c.toNat - 48)) 0

/-- All characters are decimal digits. -/
def allDigits (ds : List Char) : Bool :=
  ds.all (fun c => c.isDigit)

/-- Split a character list at the first character satisfying p; the second
component is none when no such character occurs. -/
def splitAtChar (p : Char → Bool) : List Char → List Char × Option (List Char)
  | [] => ([], none)
  | c :: cs =>
    if p c then ([], some cs)
    else
      let r := splitAtChar p cs
      (c :: r.1, r.2)

/-- Mantissa of a float literal: digits with an optional single decimal
point, at least one digit overall. -/
def parseMantissa (cs : List Char) : Option ℚ :=
  let ip := splitAtChar (fun c => c = '.') cs
  match ip.2 with
  | none =>
    if cs.isEmpty then none
    else if allDigits cs then some ((digitsToNat cs : ℕ) : ℚ) else none
  | some fr =>
    if allDigits ip.1 && allDigits fr && !(ip.1.isEmpty && fr.isEmpty) then
      some (((digitsToNat (ip.1 ++ fr) : ℕ) : ℚ) / ((10 : ℚ) ^ fr.length))
    else none

/-- Exponent part of a float literal: optional sign and digits. -/
def parseExpPart (cs : List Char) : Option ℤ :=
  let sg := parseSign cs
  if sg.2.isEmpty then none
  else if allDigits sg.2 then
    some (if sg.1 then -((digitsToNat sg.2 : ℕ) : ℤ) else ((digitsToNat sg.2 : ℕ) : ℤ))
  else none

/-- Python float(string) on plain decimal literals with optional sign,
fraction and exponent. Python additionally strips surrounding whitespace
and accepts underscores between digits and the words inf and nan; no
claim depends on those inputs. -/
def parseFloatStr (s : String) : Option ℚ :=
  let sg := parseSign s.toList
  let me := splitAtChar (fun c => c = 'e' || c = 'E') sg.2
  match me.2 with
  | none => (parseMantissa me.1).map (fun q => if sg.1 then -q else q)
  | some ex =>
    match parseMantissa me.1, parseExpPart ex with
    | some q, some e =>
      let m := if sg.1 then -q else q
      some (if 0 ≤ e then m * (10 : ℚ) ^ e.toNat else m / (10 : ℚ) ^ (-e).toNat)
    | _, _ => none

/-- Python float(v) on a JSON value: numbers and booleans convert, strings
parse as decimal literals, anything else (None, lists, dicts) raises a
TypeError, modelled as none. -/
def pyFloat : JVal → Option ℚ
  | .num q => some q
  | .boolean b => some (if b then 1 else 0)
  | .str s => parseFloatStr s
  | _ => none

/-- Python str(v) for the values fed to labels and graph node names.
String, None and boolean cases are exact; the rendering of numbers,
lists and dicts is a placeholder, as no claim inspects those label
texts. -/
def pyStr : JVal → String
  | .str s => s
  | .null => "None"
  | .boolean b => if b then "True" else "False"
  | .num q => toString q
  | .arr _ => "[...]"
  | .obj _ => "[dict]"

/-- Python iteration over a JSON value: lists yield elements, strings
yield one-character strings, dicts yield their keys, anything else
raises a TypeError. -/
def pyIter : JVal → Except Unit (List JVal)
  | .arr xs => .ok xs
  | .str s => .ok (s.toList.map (fun c => .str c.toString))
  | .obj kvs => .ok (kvs.map (fun kv => .str kv.1))
  | _ => .error ()

/-- Effectful map over a list, first raised exception wins, as a Python
list comprehension or for loop. -/
def mapE {α β : Type} (f : α → Except Unit β) : List α → Except Unit (List β)
  | [] => .ok []
  | x :: xs =>
    match f x with
    | .error e => .error e
    | .ok y =>
      match mapE f xs with
      | .error e => .error e
      | .ok ys => .ok (y :: ys)

/-- Python max over a list of numbers; max() raises on an empty list, and
every caller here guards against that, so the empty case is arbitrary. -/
def pyMax : List ℚ → ℚ
  | [] => 0
  | x :: r => r.foldl max x

/-- Python min over a list of numbers; same remark as pyMax. -/
def pyMin : List ℚ → ℚ
  | [] => 0
  | x :: r => r.foldl min x

/-- Figure descriptions: everything the script computes and hands to the
plotting library before rendering. scatter carries the x values (costs
floored at 1), y values (benefits), point labels and whether the x axis
was set to a log scale (lines 55-68); hist carries the risk values and
the fixed bin edges (lines 84-93); graph carries, per pick, the node
name and the two edge weights toward the Budget and RiskReduction hubs
(lines 126-143). -/
inductive Fig where
  | scatter (xs ys : List ℚ) (labels : List String) (logX : Bool)
  | hist (values bins : List ℚ)
  | graph (entries : List (String × ℚ × ℚ))

/-- Alphabet of standard base64 as used by Python base64.b64encode. -/
def b64Alphabet : List Char :=
  "ABCDEFGHIJKLMNOPQRSTUVWXYZabcdefghijklmnopqrstuvwxyz0123456789+/".toList

/-- Character for a 6-bit group. -/
def b64Char (n : ℕ) : Char :=
  b64Alphabet.getD n 'A'

/-- Index of a character in the base64 alphabet. -/
def charIdx (c : Char) : List Char → Option ℕ
  | [] => none
  | a :: rest => if a = c then some 0 else (charIdx c rest).map (fun n => n + 1)

/-- Inverse of b64Char on the alphabet. -/
def b64Idx (c : Char) : Option ℕ :=
  charIdx c b64Alphabet

/-- Standard base64 encoding of a byte list, with padding, as
base64.b64encode produces. -/
def encB64 : List ℕ → List Char
  | [] => []
  | [b1] => [b64Char (b1 / 4), b64Char (b1 % 4 * 16), '=', '=']
  | [b1, b2] => [b64Char (b1 / 4), b64Char (b1 % 4 * 16 + b2 / 16), b64Char (b2 % 16 * 4), '=']
  | b1 :: b2 :: b3 :: rest =>
    b64Char (b1 / 4) :: b64Char (b1 % 4 * 16 + b2 / 16) ::
      b64Char (b2 % 16 * 4 + b3 / 64) :: b64Char (b3 % 64) :: encB64 rest

/-- Strict base64 decoding: four-character groups over the alphabet with
padding only in a final group. Returns the decoded bytes, or none when
the input is not valid base64. -/
def decB64 : List Char → Option (List ℕ)
  | [] => some []
  | c1 :: c2 :: c3 :: c4 :: rest =>
    match b64Idx c1, b64Idx c2, b64Idx c3, b64Idx c4 with
    | some n1, some n2, some n3, some n4 =>
      (decB64 rest).map (fun bs =>
        (n1 * 4 + n2 / 16) :: (n2 % 16 * 16 + n3 / 4) :: (n3 % 4 * 64 + n4) :: bs)
    | some n1, some n2, some n3, none =>
      if c4 = '=' && rest.isEmpty && n3 % 4 == 0 then
        some [n1 * 4 + n2 / 16, n2 % 16 * 16 + n3 / 4]
      else none
    | some n1, some n2, none, none =>
      if c3 = '=' && c4 = '=' && rest.isEmpty && n2 % 16 == 0 then
        some [n1 * 4 + n2 / 16]
      else none
    | _, _, _, _ => none
  | _ => none

/-- One rendered chart as emitted in the images array (title,
description, dataUrl). -/
structure ImageDescriptor where
  title : String
  description : String
  dataUrl : String

/-- Output metadata object. -/
structure OutMeta where
  nx_mcp_used : Bool
  count : ℕ

/-- The JSON document written to stdout. -/
structure Output where
  images : List ImageDescriptor
  meta : OutMeta

/-- Lines 42-49, fig_to_data_url: render the figure to PNG bytes and
wrap the base64 encoding in a data URL. -/
def fig_to_data_url (render : Fig → List ℕ) (fig : Fig) : String :=
  "data:image/png;base64," ++ String.mk (encB64 (render fig))

/-- Lines 31-39, read_input: the whole stdin stream is parsed as JSON,
empty input and parse failures give an empty object; the picks and
sites entries are read with .get and the `or` idiom replaces absent or
falsy values by an empty list. A .get on a document that is not an
object raises an uncaught AttributeError, modelled as none. -/
def orEmptyList (v : Option JVal) : JVal :=
  match v with
  | none => .arr []
  | some w => if truthy w then w else .arr []

def read_input (inp : Option JVal) : Option (JVal × JVal) :=
  match inp.getD (.obj []) with
  | .obj kvs => some (orEmptyList (dictGet kvs "picks"), orEmptyList (dictGet kvs "sites"))
  | _ => none

/-- Line 56, float(p.get("cost", 0)) before the flooring by max. -/
def pickCost (p : JVal) : Except Unit ℚ :=
  match pyGet p "cost" (.num 0) with
  | .error e => .error e
  | .ok v =>
    match pyFloat v with
    | some q => .ok q
    | none => .error ()

/-- Line 56, max(1, float(p.get("cost", 0))). -/
def pickCostX (p : JVal) : Except Unit ℚ :=
  match pickCost p with
  | .error e => .error e
  | .ok q => .ok (max 1 q)

/-- Lines 57 and 134, float(p.get("benefit", 0.0)). -/
def pickBenefit (p : JVal) : Except Unit ℚ :=
  match pyGet p "benefit" (.num 0) with
  | .error e => .error e
  | .ok v =>
    match pyFloat v with
    | some q => .ok q
    | none => .error ()

/-- Line 58, str(p.get("id", "?")). -/
def pickLabel (p : JVal) : Except Unit String :=
  match pyGet p "id" (.str "?") with
  | .error e => .error e
  | .ok v => .ok (pyStr v)

/-- Line 80, float(s.get("Risk", 0.0)). -/
def siteRisk (s : JVal) : Except Unit ℚ :=
  match pyGet s "Risk" (.num 0) with
  | .error e => .error e
  | .ok v =>
    match pyFloat v with
    | some q => .ok q
    | none => .error ()

/-- Lines 52-74, chart_benefit_vs_cost, up to the figure description.
Returns ok none for a falsy picks value, otherwise builds the x, y and
label lists in the order of the three comprehensions and records
whether the log x scale condition max(xs) / max(1, min(xs)) > 50
held. -/
def chart_benefit_vs_cost_fig (picks : JVal) : Except Unit (Option Fig) :=
  if truthy picks = false then .ok none
  else
    match pyIter picks with
    | .error e => .error e
    | .ok ps =>
      match mapE pickCostX ps with
      | .error e => .error e
      | .ok xs =>
        match mapE pickBenefit ps with
        | .error e => .error e
        | .ok ys =>
          match mapE pickLabel ps with
          | .error e => .error e
          | .ok ls =>
            .ok (some (.scatter xs ys ls (decide (pyMax xs / max 1 (pyMin xs) > 50))))

/-- Fixed histogram bin edges of line 84. -/
def riskBins : List ℚ := [0, 1 / 5, 2 / 5, 3 / 5, 4 / 5, 1]

/-- Line 80, the risk list comprehension: None entries are skipped, each
other entry contributes float(s.get("Risk", 0.0)). -/
def risksOf (ss : List JVal) : Except Unit (List ℚ) :=
  mapE siteRisk (ss.filter (fun s => !isNull s))

/-- Lines 77-99, chart_risk_distribution, up to the figure description. -/
def chart_risk_distribution_fig (sites : JVal) : Except Unit (Option Fig) :=
  if truthy sites = false then .ok none
  else
    match pyIter sites with
    | .error e => .error e
    | .ok ss =>
      match risksOf ss with
      | .error e => .error e
      | .ok risks =>
        if risks.isEmpty then .ok none
        else .ok (some (.hist risks riskBins))

/-- Line 133, max(1.0, float(p.get("cost", 1)) / 1_000_000.0) uses a
default of 1, unlike lines 56-57; this is the raw converted cost before
the weight arithmetic. -/
def graphCost (p : JVal) : Except Unit ℚ :=
  match pyGet p "cost" (.num 1) with
  | .error e => .error e
  | .ok v =>
    match pyFloat v with
    | some q => .ok q
    | none => .error ()

/-- Lines 131-134, one iteration of the edge-building loop: node name
from str(p.get("id", "?")), then the Budget edge weight
max(1.0, cost / 1_000_000.0), then the RiskReduction edge weight
max(0.01, benefit). -/
def graphEntry (p : JVal) : Except Unit (String × ℚ × ℚ) :=
  match pyGet p "id" (.str "?") with
  | .error e => .error e
  | .ok v =>
    match graphCost p with
    | .error e => .error e
    | .ok c =>
      match pickBenefit p with
      | .error e => .error e
      | .ok b => .ok (pyStr v, max 1 (c / 1000000), max (1 / 100) b)

/-- Lines 126-134, the loop over picks inside the rendering try block. -/
def graphEntries (picks : JVal) : Except Unit (List (String × ℚ × ℚ)) :=
  match pyIter picks with
  | .error e => .error e
  | .ok ps => mapE graphEntry ps

/-- Lines 112-123, the optional networkx_mcp mirroring block: when the
interface imported, the same node names are recomputed and sent to it;
any exception there is swallowed by the surrounding try, and the result
is never used. mcpFails stands for a failure inside the external calls
themselves. -/
def mcpMirror (hasMcp mcpFails : Bool) (picks : JVal) : Except Unit (List String) :=
  if hasMcp = false then .ok []
  else if mcpFails then .error ()
  else
    match pyIter picks with
    | .error e => .error e
    | .ok ps => mapE (fun p => match pyGet p "id" (.str "?") with
        | .error e => .error e
        | .ok v => .ok (pyStr v)) ps

/-- Lines 102-150, chart_optimization_graph, up to the figure
description. Returns ok none when picks is falsy or networkx did not
import; the mirroring block result is discarded; any exception while
building the graph data is caught by the rendering try block and yields
ok none. -/
def chart_optimization_graph_fig (nxAvail hasMcp mcpFails : Bool) (picks : JVal) :
    Except Unit (Option Fig) :=
  if !truthy picks || !nxAvail then .ok none
  else
    let _mirror := mcpMirror hasMcp mcpFails picks
    match graphEntries picks with
    | .error _ => .ok none
    | .ok es => .ok (some (.graph es))

/-- Wrap a figure computation into the image descriptor a builder
returns: fixed title and description plus the rendered data URL. -/
def mkImage (t descr : String) (render : Fig → List ℕ) (r : Except Unit (Option Fig)) :
    Except Unit (Option ImageDescriptor) :=
  match r with
  | .error e => .error e
  | .ok none => .ok none
  | .ok (some fig) => .ok (some ⟨t, descr, fig_to_data_url render fig⟩)

/-- Lines 52-74, chart_benefit_vs_cost. -/
def chart_benefit_vs_cost (render : Fig → List ℕ) (picks : JVal) :
    Except Unit (Option ImageDescriptor) :=
  mkImage "Benefit vs Cost" "Scatter plot of strategy cost vs expected risk reduction."
    render (chart_benefit_vs_cost_fig picks)

/-- Lines 77-99, chart_risk_distribution. -/
def chart_risk_distribution (render : Fig → List ℕ) (sites : JVal) :
    Except Unit (Option ImageDescriptor) :=
  mkImage "Risk Distribution" "Histogram of site risk scores across the portfolio."
    render (chart_risk_distribution_fig sites)

/-- Lines 102-150, chart_optimization_graph. -/
def chart_optimization_graph (render : Fig → List ℕ) (nxAvail hasMcp mcpFails : Bool)
    (picks : JVal) : Except Unit (Option ImageDescriptor) :=
  mkImage "Strategy Graph" "Network diagram linking strategies to budget and risk-reduction hubs."
    render (chart_optimization_graph_fig nxAvail hasMcp mcpFails picks)

/-- Result of one guarded builder call in main: an exception or a None
result contributes nothing to the images list (a returned descriptor
dict is always truthy). -/
def okOrNone (r : Except Unit (Option ImageDescriptor)) : Option ImageDescriptor :=
  match r with
  | .ok o => o
  | .error _ => none

/-- Lines 153-180, main: read input, call the three builders each inside
its own try/except, appending any produced descriptor in call order,
then emit the images with the metadata. The overall result is none when
read_input raises (uncaught, the process dies with a traceback), some
output otherwise. -/
def runMain (render : Fig → List ℕ) (nxAvail hasMcp mcpFails : Bool) (inp : Option JVal) :
    Option Output :=
  match read_input inp with
  | none => none
  | some pr =>
    let images :=
      (okOrNone (chart_benefit_vs_cost render pr.1)).toList ++
      (okOrNone (chart_risk_distribution render pr.2)).toList ++
      (okOrNone (chart_optimization_graph render nxAvail hasMcp mcpFails pr.1)).toList
    some ⟨images, ⟨hasMcp, images.length⟩⟩

/-- Pick record of the spec example: id A, cost 100, benefit 0.5. -/
def pickA : JVal :=
  .obj [("id", .str "A"), ("cost", .num 100), ("benefit", .num (1 / 2))]

/-- Input document of the spec example: one pick, no sites. -/
def inputC6 : JVal :=
  .obj [("picks", .arr [pickA]), ("sites", .arr [])]

/-! Helper lemmas about the base64 coder. -/

/-- The alphabet lookup inverts the 6-bit encoding. -/
theorem b64Idx_b64Char (n : ℕ) (h : n < 64) : b64Idx (b64Char n) = some n := by
  have key : ∀ m : Fin 64, b64Idx (b64Char m.val) = some m.val := by decide
  exact key ⟨n, h⟩

/-- Decoding step for a full four-character group. -/
theorem decB64_quad (n1 n2 n3 n4 : ℕ) (h1 : n1 < 64) (h2 : n2 < 64) (h3 : n3 < 64)
    (h4 : n4 < 64) (rest : List Char) :
    decB64 (b64Char n1 :: b64Char n2 :: b64Char n3 :: b64Char n4 :: rest) =
      (decB64 rest).map (fun bs =>
        (n1 * 4 + n2 / 16) :: (n2 % 16 * 16 + n3 / 4) :: (n3 % 4 * 64 + n4) :: bs) := by
  simp [decB64, b64Idx_b64Char _ h1, b64Idx_b64Char _ h2, b64Idx_b64Char _ h3,
    b64Idx_b64Char _ h4]

/-- Decoding step for a group with one padding character. -/
theorem decB64_pad1 (n1 n2 n3 : ℕ) (h1 : n1 < 64) (h2 : n2 < 64) (h3 : n3 < 64)
    (h : n3 % 4 = 0) :
    decB64 [b64Char n1, b64Char n2, b64Char n3, '='] =
      some [n1 * 4 + n2 / 16, n2 % 16 * 16 + n3 / 4] := by
  have hpad : b64Idx '=' = none := by decide
  simp [decB64, b64Idx_b64Char _ h1, b64Idx_b64Char _ h2, b64Idx_b64Char _ h3, hpad, h]

/-- Decoding step for a group with two padding characters. -/
theorem decB64_pad2 (n1 n2 : ℕ) (h1 : n1 < 64) (h2 : n2 < 64) (h : n2 % 16 = 0) :
    decB64 [b64Char n1, b64Char n2, '=', '='] = some [n1 * 4 + n2 / 16] := by
  have hpad : b64Idx '=' = none := by decide
  simp [decB64, b64Idx_b64Char _ h1, b64Idx_b64Char _ h2, hpad, h]

/-- Round trip: decoding an encoded byte list gives the bytes back, so
the encoder output is valid base64. -/
theorem decB64_encB64 : ∀ bs : List ℕ, (∀ b ∈ bs, b < 256) → decB64 (encB64 bs) = some bs
  | [], _ => rfl
  | [b1], h => by
    have hb1 : b1 < 256 := h b1 (by simp)
    rw [show encB64 [b1] = [b64Char (b1 / 4), b64Char (b1 % 4 * 16), '=', '='] from rfl]
    rw [decB64_pad2 _ _ (by omega) (by omega) (by omega)]
    have : b1 / 4 * 4 + b1 % 4 * 16 / 16 = b1 := by omega
    rw [this]
  | [b1, b2], h => by
    have hb1 : b1 < 256 := h b1 (by simp)
    have hb2 : b2 < 256 := h b2 (by simp)
    rw [show encB64 [b1, b2] =
      [b64Char (b1 / 4), b64Char (b1 % 4 * 16 + b2 / 16), b64Char (b2 % 16 * 4), '='] from rfl]
    rw [decB64_pad1 _ _ _ (by omega) (by omega) (by omega) (by omega)]
    have e1 : b1 / 4 * 4 + (b1 % 4 * 16 + b2 / 16) / 16 = b1 := by omega
    have e2 : (b1 % 4 * 16 + b2 / 16) % 16 * 16 + b2 % 16 * 4 / 4 = b2 := by omega
    rw [e1, e2]
  | b1 :: b2 :: b3 :: rest, h => by
    have hb1 : b1 < 256 := h b1 (by simp)
    have hb2 : b2 < 256 := h b2 (by simp)
    have hb3 : b3 < 256 := h b3 (by simp)
    have ih : decB64 (encB64 rest) = some rest :=
      decB64_encB64 rest (fun b hb => h b (by simp only [List.mem_cons]; tauto))
    rw [show encB64 (b1 :: b2 :: b3 :: rest) =
      b64Char (b1 / 4) :: b64Char (b1 % 4 * 16 + b2 / 16) ::
        b64Char (b2 % 16 * 4 + b3 / 64) :: b64Char (b3 % 64) :: encB64 rest from rfl]
    rw [decB64_quad _ _ _ _ (by omega) (by omega) (by omega) (by omega), ih]
    have e1 : b1 / 4 * 4 + (b1 % 4 * 16 + b2 / 16) / 16 = b1 := by omega
    have e2 : (b1 % 4 * 16 + b2 / 16) % 16 * 16 + (b2 % 16 * 4 + b3 / 64) / 4 = b2 := by omega
    have e3 : (b2 % 16 * 4 + b3 / 64) % 4 * 64 + b3 % 64 = b3 := by omega
    simp [e1, e2, e3]

/-! Helper lemmas about the effectful map and the builders. -/

/-- An effectful map yields the empty list exactly on the empty list. -/
theorem mapE_ok_nil_iff {α β : Type} (f : α → Except Unit β) (l : List α) :
    mapE f l = .ok [] ↔ l = [] := by
  cases l with
  | nil => simp [mapE]
  | cons x xs =>
    simp only [mapE]
    constructor
    · intro h
      cases hfx : f x with
      | error e => rw [hfx] at h; simp at h
      | ok y =>
        rw [hfx] at h
        cases hm : mapE f xs with
        | error e => rw [hm] at h; simp at h
        | ok ys => rw [hm] at h; simp at h
    · intro h
      simp at h

/-- Unfolding of the floored cost map: the x values are exactly the raw
converted costs floored at 1. -/
theorem mapE_pickCostX : ∀ (l : List JVal) (xs : List ℚ), mapE pickCostX l = .ok xs →
    ∃ raws, mapE pickCost l = .ok raws ∧ xs = raws.map (fun q => max 1 q)
  | [], xs, h => by
    refine ⟨[], rfl, ?_⟩
    simp only [mapE] at h
    injection h with h2
    simp [h2.symm]
  | p :: ps, xs, h => by
    simp only [mapE] at h
    cases hc : pickCost p with
    | error e =>
      rw [show pickCostX p = .error e by simp [pickCostX, hc]] at h
      simp at h
    | ok q =>
      rw [show pickCostX p = .ok (max 1 q) by simp [pickCostX, hc]] at h
      cases hm : mapE pickCostX ps with
      | error e => rw [hm] at h; simp at h
      | ok ys =>
        rw [hm] at h
        simp only [Except.ok.injEq] at h
        obtain ⟨raws, hr, hys⟩ := mapE_pickCostX ps ys hm
        refine ⟨q :: raws, ?_, ?_⟩
        · simp [mapE, hc, hr]
        · rw [← h, hys]
          simp

/-- A left fold by min stays at least 1 when the seed and all elements
are. -/
theorem one_le_foldl_min : ∀ (l : List ℚ) (a : ℚ), 1 ≤ a → (∀ c ∈ l, 1 ≤ c) →
    1 ≤ l.foldl min a
  | [], a, ha, _ => ha
  | c :: cs, a, ha, hl => by
    rw [List.foldl_cons]
    exact one_le_foldl_min cs (min a c) (le_min ha (hl c (by simp)))
      (fun d hd => hl d (by simp [hd]))

/-- Every descriptor a builder produces carries a data URL built by
fig_to_data_url. -/
theorem mkImage_dataUrl (t descr : String) (render : Fig → List ℕ)
    (r : Except Unit (Option Fig)) (d : ImageDescriptor)
    (hd : d ∈ (okOrNone (mkImage t descr render r)).toList) :
    ∃ fig, d.dataUrl = fig_to_data_url render fig := by
  match r with
  | .error e => simp [mkImage, okOrNone] at hd
  | .ok none => simp [mkImage, okOrNone] at hd
  | .ok (some fig) =>
    refine ⟨fig, ?_⟩
    simp [mkImage, okOrNone] at hd
    rw [hd]

/-! Claims. -/

/-- Claim C1, counterexample: the claim that the program exits
successfully for every input document is false. The JSON document [] (a
valid top-level array) parses, and read_input then calls .get on a
list, an uncaught AttributeError: the run produces no output and the
process exits with a traceback, modelled as runMain = none. -/
theorem read_input_array_input_crashes :
    runMain (fun _ => []) true true false (some (JVal.arr [])) = none := rfl

/-- Claim C1, amended: for every input that is empty, malformed JSON, or
parses to a JSON object, the program exits successfully and writes its
output; any exception raised inside a chart builder is caught in main
and results only in that chart being omitted. Inputs parsing to a
non-object JSON value (array, string, number, boolean, null) instead
crash read_input. Totality of runMain over all such inputs subsumes
that builder exceptions never escape. -/
theorem main_total_on_safe_inputs (render : Fig → List ℕ) (nxAvail hasMcp mcpFails : Bool)
    (inp : Option JVal) (h : inp = none ∨ ∃ kvs, inp = some (JVal.obj kvs)) :
    ∃ out, runMain render nxAvail hasMcp mcpFails inp = some out := by
  rcases h with rfl | ⟨kvs, rfl⟩
  · exact ⟨_, rfl⟩
  · exact ⟨_, rfl⟩

/-- Claim C1, witness for the amended theorem at the empty input. -/
theorem main_total_on_safe_inputs_witness :
    ∃ out, runMain (fun _ => []) true true false none = some out :=
  main_total_on_safe_inputs (fun _ => []) true true false none (Or.inl rfl)

/-- Claim C2, counterexample: a pick whose cost field is present but not
numeric (here null) does not get cost 0; the float() call raises and
the whole benefit-vs-cost builder fails with an exception instead of
producing a chart. -/
theorem benefit_chart_raises_on_null_cost :
    chart_benefit_vs_cost_fig (.arr [.obj [("id", .str "A"), ("cost", .null)]]) =
      .error () := rfl

/-- Claim C2, amended: cost and benefit default to 0 when the field is
absent from the pick record (except the relationship-graph builder,
where an absent cost defaults to 1), and Risk defaults to 0 when absent
from the site record; but a field that is present with a non-numeric
value makes the conversion raise, so the builder fails and main omits
that chart, rather than the value defaulting to 0. -/
theorem numeric_field_defaults :
    (∀ kvs : List (String × JVal), dictGet kvs "cost" = none → dictGet kvs "benefit" = none →
      dictGet kvs "Risk" = none →
      pickCost (.obj kvs) = .ok 0 ∧ pickBenefit (.obj kvs) = .ok 0 ∧
        siteRisk (.obj kvs) = .ok 0 ∧ graphCost (.obj kvs) = .ok 1) ∧
    (∀ (kvs : List (String × JVal)) (v : JVal), dictGet kvs "cost" = some v →
      pyFloat v = none → pickCost (.obj kvs) = .error ()) := by
  constructor
  · intro kvs h1 h2 h3
    refine ⟨?_, ?_, ?_, ?_⟩ <;>
      simp [pickCost, pickBenefit, siteRisk, graphCost, pyGet, h1, h2, h3, pyFloat]
  · intro kvs v h1 h2
    simp [pickCost, pyGet, h1, h2]

/-- Claim C2, witness: defaults at the empty record and the failure at a
null cost. -/
theorem numeric_field_defaults_witness :
    (pickCost (.obj []) = .ok 0 ∧ pickBenefit (.obj []) = .ok 0 ∧
      siteRisk (.obj []) = .ok 0 ∧ graphCost (.obj []) = .ok 1) ∧
    pickCost (.obj [("cost", JVal.null)]) = .error () :=
  ⟨numeric_field_defaults.1 [] rfl rfl rfl,
   numeric_field_defaults.2 [("cost", JVal.null)] JVal.null rfl rfl⟩

/-- Claim C3, confirmed: empty stdin, malformed JSON (both modelled as
the none input, which read_input turns into the empty document) and the
document given as an empty object all produce the same output: no
images and meta count 0, for any environment. -/
theorem empty_and_malformed_input_output (render : Fig → List ℕ)
    (nxAvail hasMcp mcpFails : Bool) :
    runMain render nxAvail hasMcp mcpFails none = some ⟨[], ⟨hasMcp, 0⟩⟩ ∧
    runMain render nxAvail hasMcp mcpFails (some (.obj [])) = some ⟨[], ⟨hasMcp, 0⟩⟩ :=
  ⟨rfl, rfl⟩

/-- Claim C4, confirmed: whenever the program writes output, the images
array is the cost/benefit descriptor, then the risk distribution
descriptor, then the relationship graph descriptor, each omitted when
its guarded builder call returned nothing or raised, and meta count is
the length of the images array. -/
theorem images_order_and_count (render : Fig → List ℕ) (nxAvail hasMcp mcpFails : Bool)
    (inp : Option JVal) (picks sites : JVal) (out : Output)
    (hin : read_input inp = some (picks, sites))
    (hrun : runMain render nxAvail hasMcp mcpFails inp = some out) :
    out.images =
      (okOrNone (chart_benefit_vs_cost render picks)).toList ++
      (okOrNone (chart_risk_distribution render sites)).toList ++
      (okOrNone (chart_optimization_graph render nxAvail hasMcp mcpFails picks)).toList ∧
    out.meta.count = out.images.length := by
  unfold runMain at hrun
  rw [hin] at hrun
  simp only [Option.some.injEq] at hrun
  rw [← hrun]
  exact ⟨rfl, rfl⟩

/-- Claim C4, witness at the empty input. -/
theorem images_order_and_count_witness :
    (⟨[], ⟨true, 0⟩⟩ : Output).images =
      (okOrNone (chart_benefit_vs_cost (fun _ => []) (.arr []))).toList ++
      (okOrNone (chart_risk_distribution (fun _ => []) (.arr []))).toList ++
      (okOrNone (chart_optimization_graph (fun _ => []) true true false (.arr []))).toList ∧
    (⟨[], ⟨true, 0⟩⟩ : Output).meta.count = (⟨[], ⟨true, 0⟩⟩ : Output).images.length :=
  images_order_and_count (fun _ => []) true true false none (.arr []) (.arr [])
    ⟨[], ⟨true, 0⟩⟩ rfl rfl

/-- Claim C5, confirmed: the availability of the optional networkx_mcp
interface and any failure of its mirrored calls change neither any
builder result (in particular the rendered relationship-graph chart)
nor the images and count of the output; only the meta nx_mcp_used flag
follows the availability bit. -/
theorem mcp_only_affects_flag (render : Fig → List ℕ) (nxAvail m1 f1 m2 f2 : Bool)
    (picks : JVal) (inp : Option JVal) :
    chart_optimization_graph render nxAvail m1 f1 picks =
      chart_optimization_graph render nxAvail m2 f2 picks ∧
    (runMain render nxAvail m1 f1 inp).map (fun o => (o.images, o.meta.count)) =
      (runMain render nxAvail m2 f2 inp).map (fun o => (o.images, o.meta.count)) ∧
    (runMain render nxAvail m1 f1 inp).map (fun o => o.meta.nx_mcp_used) =
      (runMain render nxAvail m1 f1 inp).map (fun _ => m1) := by
  refine ⟨rfl, ?_, ?_⟩
  · cases hin : read_input inp with
    | none => unfold runMain; rw [hin]
    | some pr => unfold runMain; rw [hin]; rfl
  · cases hin : read_input inp with
    | none => unfold runMain; rw [hin]; rfl
    | some pr => unfold runMain; rw [hin]; rfl

/-- Claim C6, confirmed (with the primary graph library available, as
the spec example presumes): for one pick with id A, cost 100 and
benefit 0.5 and no sites, the output has exactly the cost/benefit chart
and the relationship graph chart, in that order, with the risk
distribution omitted, and meta count 2. -/
theorem single_pick_two_images (render : Fig → List ℕ) (hasMcp mcpFails : Bool) :
    (runMain render true hasMcp mcpFails (some inputC6)).map
      (fun o => (o.images.map (fun d => d.title), o.meta.count)) =
    some (["Benefit vs Cost", "Strategy Graph"], 2) := rfl

/-- Claim C10, confirmed: null entries in the sites list are skipped by
the risk extraction, and a nonempty sites list consisting only of nulls
makes the builder return nothing rather than raise. -/
theorem null_sites_skipped :
    (∀ ss : List JVal, risksOf (JVal.null :: ss) = risksOf ss) ∧
    (∀ ss : List JVal, ss ≠ [] → (∀ s ∈ ss, s = JVal.null) →
      chart_risk_distribution_fig (.arr ss) = .ok none) := by
  constructor
  · intro ss
    rfl
  · intro ss hne hall
    obtain ⟨s, rest, rfl⟩ := List.exists_cons_of_ne_nil hne
    have hfil : (s :: rest).filter (fun x => !isNull x) = [] := by
      rw [List.filter_eq_nil_iff]
      intro a ha
      rw [hall a ha]
      simp [isNull]
    simp [chart_risk_distribution_fig, truthy, pyIter, risksOf, hfil, mapE]

/-- Claim C10, witness: a single null site yields no chart and no
error. -/
theorem null_sites_skipped_witness :
    chart_risk_distribution_fig (.arr [JVal.null]) = .ok none :=
  null_sites_skipped.2 [JVal.null] (by simp) (by simp)

/-- Unfolding of the benefit-vs-cost figure on a nonempty list. -/
theorem benefit_fig_cons (p : JVal) (ps : List JVal) :
    chart_benefit_vs_cost_fig (.arr (p :: ps)) =
      (match mapE pickCostX (p :: ps) with
       | .error e => .error e
       | .ok xs =>
         match mapE pickBenefit (p :: ps) with
         | .error e => .error e
         | .ok ys =>
           match mapE pickLabel (p :: ps) with
           | .error e => .error e
           | .ok ls =>
             .ok (some (.scatter xs ys ls
               (decide (pyMax xs / max 1 (pyMin xs) > 50))))) := rfl

/-- Claim C7, confirmed: on a picks list the benefit-vs-cost builder
returns nothing exactly when the list is empty; when it produces a
scatter figure, the x values are the converted costs floored at 1, the
y values are the converted benefits, and the x axis is logarithmic
exactly when the ratio of the maximum to the minimum floored cost
exceeds 50 (the max(1, min(xs)) guard of line 64 coincides with
min(xs) because every floored cost is at least 1). -/
theorem benefit_cost_scatter_spec (picks : List JVal) :
    (chart_benefit_vs_cost_fig (.arr picks) = .ok none ↔ picks = []) ∧
    (∀ (cs ys : List ℚ) (ls : List String) (lx : Bool),
      chart_benefit_vs_cost_fig (.arr picks) = .ok (some (.scatter cs ys ls lx)) →
      (∃ raws, mapE pickCost picks = .ok raws ∧ cs = raws.map (fun q => max 1 q)) ∧
      mapE pickBenefit picks = .ok ys ∧
      (lx = true ↔ pyMax cs / pyMin cs > 50)) := by
  cases picks with
  | nil =>
    refine ⟨⟨fun _ => rfl, fun _ => rfl⟩, ?_⟩
    intro cs ys ls lx h
    rw [show chart_benefit_vs_cost_fig (.arr []) = .ok none from rfl] at h
    simp at h
  | cons p ps =>
    constructor
    · constructor
      · intro h
        exfalso
        rw [benefit_fig_cons] at h
        cases h1 : mapE pickCostX (p :: ps) with
        | error e => rw [h1] at h; simp at h
        | ok xs =>
          rw [h1] at h
          cases h2 : mapE pickBenefit (p :: ps) with
          | error e => rw [h2] at h; simp at h
          | ok ys0 =>
            rw [h2] at h
            cases h3 : mapE pickLabel (p :: ps) with
            | error e => rw [h3] at h; simp at h
            | ok ls0 => rw [h3] at h; simp at h
      · intro h
        simp at h
    · intro cs ys ls lx h
      rw [benefit_fig_cons] at h
      cases h1 : mapE pickCostX (p :: ps) with
      | error e => rw [h1] at h; simp at h
      | ok xs =>
        rw [h1] at h
        cases h2 : mapE pickBenefit (p :: ps) with
        | error e => rw [h2] at h; simp at h
        | ok ys0 =>
          rw [h2] at h
          cases h3 : mapE pickLabel (p :: ps) with
          | error e => rw [h3] at h; simp at h
          | ok ls0 =>
            rw [h3] at h
            simp only [Except.ok.injEq, Option.some.injEq, Fig.scatter.injEq] at h
            obtain ⟨hxs, hys, hls, hlx⟩ := h
            rw [← hxs, ← hys, ← hlx]
            obtain ⟨raws, hraws, hmap⟩ := mapE_pickCostX (p :: ps) xs h1
            refine ⟨⟨raws, hraws, hmap⟩, rfl, ?_⟩
            have hones : ∀ c ∈ xs, 1 ≤ c := by
              intro c hc
              rw [hmap] at hc
              obtain ⟨r, _, rfl⟩ := List.mem_map.1 hc
              exact le_max_left 1 r
            have hne : xs ≠ [] := by
              intro hnil
              rw [hnil] at h1
              exact absurd ((mapE_ok_nil_iff pickCostX (p :: ps)).1 h1) (by simp)
            have hmin : 1 ≤ pyMin xs := by
              cases xs with
              | nil => exact absurd rfl hne
              | cons c cs0 =>
                exact one_le_foldl_min cs0 c (hones c (by simp))
                  (fun d hd => hones d (by simp [hd]))
            rw [decide_eq_true_iff]
            rw [max_eq_right hmin]

/-- Claim C7, witness: the empty picks list produces no figure. -/
theorem benefit_cost_scatter_spec_witness :
    chart_benefit_vs_cost_fig (.arr []) = .ok none :=
  (benefit_cost_scatter_spec []).1.mpr rfl

/-- Unfolding of the risk-distribution figure on a nonempty list. -/
theorem risk_fig_cons (s : JVal) (ss : List JVal) :
    chart_risk_distribution_fig (.arr (s :: ss)) =
      (match risksOf (s :: ss) with
       | .error e => .error e
       | .ok risks =>
         if risks.isEmpty then .ok none else .ok (some (.hist risks riskBins))) := rfl

/-- Claim C8, counterexample: a site whose Risk field is present but not
numeric is not a site without a valid numeric Risk value that the
builder skips; the float() call raises, so the builder fails with an
exception instead of returning nothing. -/
theorem risk_chart_raises_on_invalid_risk :
    chart_risk_distribution_fig (.arr [.obj [("Risk", .str "abc")]]) = .error () := rfl

/-- Claim C8, amended: the risk-distribution builder returns nothing
exactly when the extracted risk list is empty, which happens exactly
when the sites list is empty or every entry is null (each non-null site
contributes float of its Risk field, defaulting to 0 when the field is
absent; a present but non-convertible Risk raises instead, failing the
builder). Otherwise it produces a histogram of exactly the extracted
risk scores over the fixed bin edges 0.0, 0.2, 0.4, 0.6, 0.8, 1.0. -/
theorem risk_chart_none_iff (ss : List JVal) :
    (chart_risk_distribution_fig (.arr ss) = .ok none ↔ risksOf ss = .ok []) ∧
    (risksOf ss = .ok [] ↔ ∀ s ∈ ss, isNull s = true) ∧
    (∀ (vals bins : List ℚ),
      chart_risk_distribution_fig (.arr ss) = .ok (some (.hist vals bins)) →
      risksOf ss = .ok vals ∧ vals ≠ [] ∧ bins = riskBins) := by
  refine ⟨?_, ?_, ?_⟩
  · cases ss with
    | nil => exact ⟨fun _ => rfl, fun _ => rfl⟩
    | cons s rest =>
      rw [risk_fig_cons]
      cases hr : risksOf (s :: rest) with
      | error e => simp
      | ok risks =>
        cases risks with
        | nil => simp
        | cons r rs => simp
  · rw [risksOf, mapE_ok_nil_iff, List.filter_eq_nil_iff]
    constructor
    · intro h s hs
      have := h s hs
      simpa using this
    · intro h s hs
      simp [h s hs]
  · intro vals bins h
    cases ss with
    | nil =>
      rw [show chart_risk_distribution_fig (.arr []) = .ok none from rfl] at h
      simp at h
    | cons s rest =>
      rw [risk_fig_cons] at h
      cases hr : risksOf (s :: rest) with
      | error e => rw [hr] at h; simp at h
      | ok risks =>
        rw [hr] at h
        cases risks with
        | nil => simp at h
        | cons r rs =>
          simp only [List.isEmpty_cons, Bool.false_eq_true, if_false, Except.ok.injEq,
            Option.some.injEq, Fig.hist.injEq] at h
          obtain ⟨hvals, hbins⟩ := h
          rw [← hvals]
          exact ⟨rfl, by simp, hbins.symm⟩

/-- Claim C8, witness: two null sites produce no chart and no error. -/
theorem risk_chart_none_iff_witness :
    chart_risk_distribution_fig (.arr [JVal.null, JVal.null]) = .ok none :=
  (risk_chart_none_iff [JVal.null, JVal.null]).1.mpr rfl

/-- Claim C9, confirmed: every data URL in the output images is the
literal PNG data-URL head followed by the base64 encoding of the
rendered bytes, and that remainder decodes as valid base64 (the
decoder recovers exactly the rendered bytes). -/
theorem data_urls_base64 (render : Fig → List ℕ)
    (hb : ∀ fig, ∀ b ∈ render fig, b < 256)
    (nxAvail hasMcp mcpFails : Bool) (inp : Option JVal) (out : Output)
    (d : ImageDescriptor)
    (hrun : runMain render nxAvail hasMcp mcpFails inp = some out)
    (hd : d ∈ out.images) :
    ∃ cs, d.dataUrl = "data:image/png;base64," ++ String.mk cs ∧
      ∃ bs, decB64 cs = some bs := by
  cases hin : read_input inp with
  | none =>
    unfold runMain at hrun
    rw [hin] at hrun
    simp at hrun
  | some pr =>
    unfold runMain at hrun
    rw [hin] at hrun
    simp only [Option.some.injEq] at hrun
    rw [← hrun] at hd
    have key : ∃ fig, d.dataUrl = fig_to_data_url render fig := by
      rcases List.mem_append.1 hd with h12 | h3
      · rcases List.mem_append.1 h12 with h1 | h2
        · exact mkImage_dataUrl _ _ render _ d h1
        · exact mkImage_dataUrl _ _ render _ d h2
      · exact mkImage_dataUrl _ _ render _ d h3
    obtain ⟨fig, hurl⟩ := key
    refine ⟨encB64 (render fig), ?_, render fig, decB64_encB64 (render fig) (hb fig)⟩
    rw [hurl]
    rfl

/-- Claim C9, witness: a concrete run with one site and a rendering
producing no bytes. -/
theorem data_urls_base64_witness :
    ∃ cs, (ImageDescriptor.mk "Risk Distribution"
        "Histogram of site risk scores across the portfolio."
        "data:image/png;base64,").dataUrl = "data:image/png;base64," ++ String.mk cs ∧
      ∃ bs, decB64 cs = some bs :=
  data_urls_base64 (fun _ => []) (by intro fig b hbmem; simp at hbmem)
    true true false (some (.obj [("sites", .arr [.obj []])]))
    ⟨[⟨"Risk Distribution", "Histogram of site risk scores across the portfolio.",
      "data:image/png;base64,"⟩], ⟨true, 1⟩⟩
    ⟨"Risk Distribution", "Histogram of site risk scores across the portfolio.",
      "data:image/png;base64,"⟩
    rfl (by simp)
